import Mathlib

/-!
Verification of the poroelastic contact-mechanics setup (setup_3.py, main_4.py).

The repository's setup_3.py configures a Biot poroelasticity simulation with
fracture contact mechanics in the PorePy framework.  The class Example3Setup
provides:
  - set_parameters: records physical constants, boundary data, initial state,
    the primary-variable layout, the bulk discretization table, and the
    interface coupling-discretization table, all keyed by physics keywords;
  - initial_condition: the initial Newton guess;
  - bc_values: time-dependent boundary-condition value vectors, dispatched on
    the physics keyword.

We give a shallow embedding: the registered dictionaries become Lean record
fields and association lists, numeric data becomes rationals, and the raised
ValueError exceptions become the error side of Except.  All definitions are
translated from the source file.
-/

namespace PoroContact

/-- Physical constant from Example3Setup: specific storage S = 1e-10 / PASCAL
(PorePy unit constants PASCAL, METER, SECOND are 1; MILLI is 1e-3). -/
def S : ℚ := 1 / 10 ^ 10

/-- Physical constant from Example3Setup: permeability k = 1e-11 * METER^2. -/
def k : ℚ := 1 / 10 ^ 11

/-- Physical constant from Example3Setup: viscosity = 1 * MILLI * PASCAL * SECOND. -/
def viscosity : ℚ := 1 / 1000

/-- Simulation end time from Example3Setup.__init__:
end_time = 5 * viscosity * S * METER / k  (the earlier assignment end_time = 1
is overwritten). -/
def end_time : ℚ := 5 * viscosity * S * 1 / k

/-- The flow keyword, the literal string assigned to key_f in set_parameters. -/
def key_f : String := "flow"

/-- Subcell topology data of a grid, as produced by pp.fvutils.SubcellTopology.
The construction itself is PorePy library code (out of scope); we keep the two
fields set_parameters and bc_values read: the number of unique sub-faces and,
for each unique sub-face, the index of the face it belongs to. -/
structure SubcellTopology where
  num_subfno_unique : ℕ
  fno_unique : List ℕ
  fno_length : fno_unique.length = num_subfno_unique
deriving DecidableEq

/-- A bulk grid, with the fields of pp.Grid that setup_3.py reads: dimension,
cell count, the last coordinate of each face center and of each node (used for
the top-boundary test), and its subcell topology. -/
structure Grid where
  dim : ℕ
  num_cells : ℕ
  face_centers_last : List ℚ
  nodes_last : List ℚ
  st : SubcellTopology
deriving DecidableEq

/-- A mortar (interface) grid; setup_3.py only reads its cell count. -/
structure MortarGrid where
  num_cells : ℕ
deriving DecidableEq

/-- Maximum of a list of rationals, as np.max computes on a nonempty array
(0 for the empty list, which does not occur for a real grid). -/
def listMax : List ℚ → ℚ
  | [] => 0
  | [a] => a
  | a :: b :: rest => max a (listMax (b :: rest))

/-- Top-boundary predicate from bc_values:
top = g.face_centers[g.dim - 1] > np.max(g.nodes[g.dim - 1]) - 1e-9,
evaluated at face index f. -/
def topFace (g : Grid) (f : ℕ) : Bool :=
  decide (g.face_centers_last.getD f 0 > listMax g.nodes_last - 1 / 10 ^ 9)

/-- One column of the mechanical boundary-value array u_bc, for a single unique
sub-face: bc_values writes x into component 0 and y into component 1 of the
columns selected by the top predicate, all other entries stay zero. -/
def mechBcColumn (dim : ℕ) (isTop : Bool) (x y : ℚ) : List ℚ :=
  (List.range dim).map fun i =>
    if isTop then (if i = 0 then x else if i = 1 then y else 0) else 0

/-- The mechanics branch of bc_values: the array u_bc of shape
(g.dim, num_subfno_unique) with the time-ramped values on top sub-faces,
returned flattened in Fortran order (sub-face-major, component-minor). -/
def mechBcValues (g : Grid) (t : ℚ) : List ℚ :=
  let x : ℚ := if t < end_time / 2 then 5 / 1000 * t / (end_time / 2) else 5 / 1000
  let y : ℚ := if t < end_time / 2 then -2 / 1000 * t / (end_time / 2) else -2 / 1000
  (g.st.fno_unique.map fun f => mechBcColumn g.dim (topFace g f) x y).flatten

/-- The flow branch of bc_values: p_bc = np.zeros(s_t.num_subfno_unique). -/
def flowBcValues (g : Grid) : List ℚ :=
  List.replicate g.st.num_subfno_unique 0

/-- Example3Setup.bc_values: dispatch on the keyword; the recorded mechanics
and flow keywords are passed explicitly (they are stored on self by
set_parameters).  An unknown keyword raises ValueError, modelled as error. -/
def bc_values (km kf : String) (g : Grid) (t : ℚ) (key : String) :
    Except String (List ℚ) :=
  if key = km then .ok (mechBcValues g t)
  else if key = kf then .ok (flowBcValues g)
  else .error ("Unknown keyword: " ++ key)

/-- The discretization objects setup_3.py instantiates for the bulk grid,
tagged by the keyword each one is constructed with. -/
inductive Discr
  | Mpsa (key : String)
  | ImplicitMpfa (key : String)
  | ImplicitMassMatrix (key : String)
  | BiotStabilization (key : String)
  | GradP (key : String)
  | DivD (key : String)
deriving DecidableEq

/-- The interface-law objects setup_3.py instantiates for the mortar grid,
each wrapping a bulk discretization. -/
inductive CouplingLaw
  | RobinContact (key : String) (discr : Discr)
  | RobinContactBiotPressure (key : String) (discr : Discr)
  | DivU_StressMortar (key : String) (discr : Discr)
deriving DecidableEq

/-- One entry of data_edge[pp.COUPLING_DISCRETIZATION]: the (variable, term)
pair registered for the bulk grid g (the Python dict literal writes the g key
twice with the same value, so a single pair remains), and the
(mortar variable, interface law) pair registered for the edge (g, g). -/
structure CouplingEntry where
  bulkVar : String
  bulkTerm : String
  mortarVar : String
  law : CouplingLaw
deriving DecidableEq

/-- The bulk discretization table data_node[pp.DISCRETIZATION], an association
list from variable (or variable-pair) name to its named operator terms. -/
def discretizationTable (km : String) : List (String × List (String × Discr)) :=
  [("u", [("div_sigma", .Mpsa km)]),
   ("p", [("flux", .ImplicitMpfa key_f),
          ("mass", .ImplicitMassMatrix key_f),
          ("stab", .BiotStabilization key_f)]),
   ("u_p", [("grad_p", .GradP km)]),
   ("p_u", [("div_u", .DivD km)])]

/-- The interface table data_edge[pp.COUPLING_DISCRETIZATION] with its three
coupling conditions.  The bulk term of the second and third condition is the
string "flux", as written in the source (the comments there say it should be
"grad_p" respectively "div_u", but record an assembler limitation). -/
def couplingTable (km : String) : List (String × CouplingEntry) :=
  [("robin_discretization",
     ⟨"u", "div_sigma", "lam_u", .RobinContact km (.Mpsa km)⟩),
   ("p_contribution_to_displacement",
     ⟨"p", "flux", "lam_u", .RobinContactBiotPressure km (.GradP km)⟩),
   ("lam_u_contr_2_div_u",
     ⟨"p", "flux", "lam_u", .DivU_StressMortar km (.DivD km)⟩)]

/-- Everything set_parameters registers in data_node and data_edge on success:
the recorded keywords, the Biot parameters added to the mechanics dictionary,
the initial solution state, the flow parameter dictionary, the
primary-variable layouts, the discretization tables, and the fact that the
final pp.Biot(key_m, key_f).discretize call is reached. -/
structure SetupData where
  key_m : String
  key_f : String
  mech_biot_alpha : ℚ
  mech_time_step : ℚ
  mech_bc_values : List ℚ
  mech_state_displacement : List ℚ
  mech_state_bc_values : List ℚ
  edge_state : List ℚ
  flow_bc_values : List ℚ
  flow_mass_weight : ℚ
  flow_aperture : List ℚ
  flow_biot_alpha : ℚ
  flow_time_step : ℚ
  flow_state : List ℚ
  node_primary_variables : List (String × ℕ)
  node_discretization : List (String × List (String × Discr))
  edge_primary_variables : List (String × ℕ)
  edge_coupling : List (String × CouplingEntry)
  biot_discretized : Bool
deriving DecidableEq

/-- The registration record built by the body of set_parameters after the
keyword check has passed, with km the (equal) mechanics/contact keyword. -/
def buildSetupData (g : Grid) (mg : MortarGrid) (km : String) : SetupData :=
  let alpha : ℚ := 1
  let dt : ℚ := end_time / 20
  { key_m := km
    key_f := key_f
    mech_biot_alpha := alpha
    mech_time_step := dt
    mech_bc_values := mechBcValues g dt
    mech_state_displacement := List.replicate (g.dim * g.num_cells) 0
    mech_state_bc_values := mechBcValues g 0
    edge_state := List.replicate (g.dim * mg.num_cells) 0
    flow_bc_values := flowBcValues g
    flow_mass_weight := S
    flow_aperture := List.replicate g.num_cells 1
    flow_biot_alpha := alpha
    flow_time_step := dt
    flow_state := List.replicate g.num_cells 0
    node_primary_variables := [("u", g.dim), ("p", 1)]
    node_discretization := discretizationTable km
    edge_primary_variables := [("lam_u", g.dim)]
    edge_coupling := couplingTable km
    biot_discretized := true }

/-- Example3Setup.set_parameters.  The parent class (setup_1, an external
collaborator here) returns the mechanics keyword key_m and the contact keyword
key_c; they are passed in.  The consistency check
if not key_m == key_c: raise ValueError(...) runs before any dictionary entry,
variable layout or discretization of this method is registered, so on error no
SetupData is produced. -/
def set_parameters (g : Grid) (mg : MortarGrid) (km kc : String) :
    Except String SetupData :=
  if ¬ km = kc then .error "Mechanics keyword must equal contact keyword"
  else .ok (buildSetupData g mg km)

/-- Example3Setup.initial_condition: given the bulk grid, the mortar grid and
the per-cell fracture normal array nc (shape dim x mortar cells), return the
zero bulk displacement, the contact traction Tc = -100 * nc, and the zero
interface displacement jump, as the Newton initial guess (u0, uc, Tc). -/
def initial_condition (g : Grid) (mg : MortarGrid) (nc : List (List ℚ)) :
    List (List ℚ) × List (List ℚ) × List (List ℚ) :=
  let u0 := List.replicate g.dim (List.replicate g.num_cells (0 : ℚ))
  let Tc := nc.map fun row => row.map fun v => -100 * v
  let uc := List.replicate g.dim (List.replicate mg.num_cells (0 : ℚ))
  (u0, uc, Tc)

/-- Association-list lookup used to state claims about the registered tables. -/
def alistLookup {α : Type} (tbl : List (String × α)) (x : String) : Option α :=
  match tbl with
  | [] => none
  | (s, a) :: rest => if s = x then some a else alistLookup rest x

/-- A small concrete 2D grid used to instantiate the theorems: two cells,
three faces (the face with last coordinate 1 lies on the top boundary), three
unique sub-faces, of which the last two belong to the top face. -/
def exampleGrid : Grid :=
  { dim := 2
    num_cells := 2
    face_centers_last := [0, 1, 1/2]
    nodes_last := [0, 1, 0, 1]
    st := { num_subfno_unique := 3, fno_unique := [0, 1, 1], fno_length := rfl } }

/-- A concrete mortar grid with one cell, for instantiating the theorems. -/
def exampleMortar : MortarGrid := ⟨1⟩

/-- C1: set_parameters fails with the inconsistent-keyword ValueError, before
any registration or discretization happens (the error branch produces no
SetupData), exactly when the mechanics keyword returned by the parent setup
differs from the contact keyword; when they agree it succeeds and returns the
full registration record. -/
theorem set_parameters_keyword_check (g : Grid) (mg : MortarGrid)
    (km kc : String) :
    ((∃ e, set_parameters g mg km kc = .error e) ↔ km ≠ kc) ∧
    (km = kc → set_parameters g mg km kc = .ok (buildSetupData g mg km)) := by
  refine ⟨⟨fun ⟨e, he⟩ hk => ?_,
    fun hk => ⟨"Mechanics keyword must equal contact keyword", ?_⟩⟩,
    fun hk => ?_⟩
  · simp [set_parameters, hk] at he
  · simp [set_parameters, hk]
  · simp [set_parameters, hk]

/-- Witness for C1: with distinct keywords set_parameters errors, with equal
keywords it succeeds, at the concrete example grids. -/
theorem set_parameters_keyword_check_witness :
    (∃ e, set_parameters exampleGrid exampleMortar "mechanics" "contact" =
      .error e) ∧
    set_parameters exampleGrid exampleMortar "mechanics" "mechanics" =
      .ok (buildSetupData exampleGrid exampleMortar "mechanics") :=
  ⟨(set_parameters_keyword_check exampleGrid exampleMortar "mechanics"
      "contact").1.mpr (by decide),
   (set_parameters_keyword_check exampleGrid exampleMortar "mechanics"
      "mechanics").2 rfl⟩

/-- C2 (divergence witness): in the coupling table actually registered by
set_parameters, the bulk term referenced by the pressure-contribution-to-
displacement condition and by the mortar-contribution-to-div_u condition is
the string "flux" in both cases, which is neither the grad_p term nor the
div_u term the claim (and the source comments) call for. -/
theorem coupling_bulk_term_is_flux :
    ((alistLookup (couplingTable "mechanics")
        "p_contribution_to_displacement").map CouplingEntry.bulkTerm
      = some "flux") ∧
    ((alistLookup (couplingTable "mechanics")
        "lam_u_contr_2_div_u").map CouplingEntry.bulkTerm
      = some "flux") ∧
    ("flux" : String) ≠ "grad_p" ∧ ("flux" : String) ≠ "div_u" := by
  refine ⟨rfl, rfl, by decide, by decide⟩

/-- C4: the bulk discretization table of a successful set_parameters call
contains exactly the four rows u, p, u_p, p_u, with the MPSA stress divergence
on u; the implicit-MPFA flux, the implicit mass matrix and the Biot
stabilization on p; the GradP coupling on the row u_p (pressure into the
displacement equation); and the DivD coupling on the row p_u (displacement
into the mass balance); and no other rows or terms. -/
theorem node_discretization_table (g : Grid) (mg : MortarGrid) (km : String) :
    ∃ d, set_parameters g mg km km = .ok d ∧
      alistLookup d.node_discretization "u" = some [("div_sigma", .Mpsa km)] ∧
      alistLookup d.node_discretization "p" =
        some [("flux", .ImplicitMpfa key_f),
              ("mass", .ImplicitMassMatrix key_f),
              ("stab", .BiotStabilization key_f)] ∧
      alistLookup d.node_discretization "u_p" =
        some [("grad_p", .GradP km)] ∧
      alistLookup d.node_discretization "p_u" =
        some [("div_u", .DivD km)] ∧
      d.node_discretization.map Prod.fst = ["u", "p", "u_p", "p_u"] :=
  ⟨buildSetupData g mg km, by simp [set_parameters], rfl, rfl, rfl, rfl, rfl⟩

/-- C6: a successful set_parameters call declares the bulk primary variables
as exactly u with g.dim components per cell and p with 1 component per cell. -/
theorem node_primary_variable_layout (g : Grid) (mg : MortarGrid)
    (km : String) :
    ∃ d, set_parameters g mg km km = .ok d ∧
      alistLookup d.node_primary_variables "u" = some g.dim ∧
      alistLookup d.node_primary_variables "p" = some 1 ∧
      d.node_primary_variables.map Prod.fst = ["u", "p"] :=
  ⟨buildSetupData g mg km, by simp [set_parameters], rfl, rfl, rfl⟩

/-- C9: a successful set_parameters call stores the same Biot coefficient
under the mechanics and flow keywords, both equal to 1, and the same time
step under both keywords, both equal to end_time / 20. -/
theorem biot_coupling_consistency (g : Grid) (mg : MortarGrid) (km : String) :
    ∃ d, set_parameters g mg km km = .ok d ∧
      d.mech_biot_alpha = d.flow_biot_alpha ∧ d.mech_biot_alpha = 1 ∧
      d.mech_time_step = d.flow_time_step ∧
      d.mech_time_step = end_time / 20 :=
  ⟨buildSetupData g mg km, by simp [set_parameters], rfl, rfl, rfl, rfl⟩

/-- C3: for a 2-dimensional grid and any time t at least 0, the mechanics
boundary values are, sub-face by sub-face, the pair
(0.005 * t / (end_time/2), -0.002 * t / (end_time/2)) on top-boundary
sub-faces while t < end_time / 2, the constant pair (0.005, -0.002) on them
afterwards, and the zero pair on every other sub-face. -/
theorem mech_bc_values_ramp (g : Grid) (t : ℚ) (h2 : g.dim = 2)
    (_ht : 0 ≤ t) :
    mechBcValues g t =
      (g.st.fno_unique.map fun f =>
        if topFace g f then
          [if t < end_time / 2 then 5 / 1000 * t / (end_time / 2)
             else 5 / 1000,
           if t < end_time / 2 then -2 / 1000 * t / (end_time / 2)
             else -2 / 1000]
        else [0, 0]).flatten := by
  have hcol : ∀ (b : Bool) (x y : ℚ),
      mechBcColumn 2 b x y = if b then [x, y] else [0, 0] := by
    intro b x y
    cases b <;> rfl
  simp only [mechBcValues, h2, hcol]

/-- Witness for C3: the ramp shape of the mechanics boundary values at the
concrete example grid and the concrete time 1/400. -/
theorem mech_bc_values_ramp_witness :
    mechBcValues exampleGrid (1 / 400) =
      (exampleGrid.st.fno_unique.map fun f =>
        if topFace exampleGrid f then
          [if (1 / 400 : ℚ) < end_time / 2
             then 5 / 1000 * (1 / 400) / (end_time / 2) else 5 / 1000,
           if (1 / 400 : ℚ) < end_time / 2
             then -2 / 1000 * (1 / 400) / (end_time / 2) else -2 / 1000]
        else [0, 0]).flatten :=
  mech_bc_values_ramp exampleGrid (1 / 400) rfl (by norm_num)

/-- C5: a successful set_parameters call declares exactly one interface
primary variable, lam_u, with g.dim components per mortar cell, registers
exactly the three coupling conditions, and keys every one of them to the
mortar variable lam_u. -/
theorem edge_single_mortar_variable (g : Grid) (mg : MortarGrid)
    (km : String) :
    ∃ d, set_parameters g mg km km = .ok d ∧
      d.edge_primary_variables = [("lam_u", g.dim)] ∧
      d.edge_coupling.map Prod.fst =
        ["robin_discretization", "p_contribution_to_displacement",
         "lam_u_contr_2_div_u"] ∧
      (d.edge_coupling.all fun e => e.2.mortarVar == "lam_u") = true :=
  ⟨buildSetupData g mg km, by simp [set_parameters], rfl, rfl, rfl⟩

/-- C7: with the mechanics keyword distinct from the flow keyword (as in the
program, where the parent sets a mechanics keyword and key_f is the literal
"flow"), bc_values under the flow keyword is the all-zero vector of length
num_subfno_unique at every time, and a successful set_parameters call records
zero initial displacement, zero initial pressure and zero initial mortar
state. -/
theorem trivial_flow_data (g : Grid) (mg : MortarGrid) (km : String) (t : ℚ)
    (hk : km ≠ key_f) :
    bc_values km key_f g t key_f =
      .ok (List.replicate g.st.num_subfno_unique 0) ∧
    ∃ d, set_parameters g mg km km = .ok d ∧
      d.flow_bc_values = List.replicate g.st.num_subfno_unique 0 ∧
      d.mech_state_displacement = List.replicate (g.dim * g.num_cells) 0 ∧
      d.flow_state = List.replicate g.num_cells 0 ∧
      d.edge_state = List.replicate (g.dim * mg.num_cells) 0 := by
  refine ⟨?_, buildSetupData g mg km, by simp [set_parameters],
    rfl, rfl, rfl, rfl⟩
  unfold bc_values
  rw [if_neg (Ne.symm hk), if_pos rfl]
  rfl

/-- Witness for C7: the flow boundary values vanish at the example grid with
the mechanics keyword "mechanics" and time 1/400. -/
theorem trivial_flow_data_witness :
    bc_values "mechanics" key_f exampleGrid (1 / 400) key_f =
      .ok (List.replicate exampleGrid.st.num_subfno_unique 0) :=
  (trivial_flow_data exampleGrid exampleMortar "mechanics" (1 / 400)
    (by decide)).1

/-- C8: initial_condition returns the zero bulk displacement of shape
g.dim x g.num_cells, the zero interface displacement jump of shape
g.dim x mg.num_cells, and the contact traction -100 * nc (same shape as nc,
entrywise -100 times), so the Newton iteration starts from uniform
compression rather than zero traction. -/
theorem initial_condition_start_state (g : Grid) (mg : MortarGrid)
    (nc : List (List ℚ)) :
    (initial_condition g mg nc).1 =
      List.replicate g.dim (List.replicate g.num_cells 0) ∧
    (initial_condition g mg nc).2.1 =
      List.replicate g.dim (List.replicate mg.num_cells 0) ∧
    (initial_condition g mg nc).2.2.length = nc.length ∧
    (∀ i, ((initial_condition g mg nc).2.2.getD i []).length =
      (nc.getD i []).length) ∧
    ∀ i j, ((initial_condition g mg nc).2.2.getD i []).getD j 0 =
      -100 * (nc.getD i []).getD j 0 := by
  refine ⟨rfl, rfl, by simp [initial_condition], fun i => ?_, fun i j => ?_⟩
  · simp only [initial_condition, List.getD_eq_getElem?_getD,
      List.getElem?_map]
    cases h : nc[i]? <;> simp
  · simp only [initial_condition, List.getD_eq_getElem?_getD,
      List.getElem?_map]
    cases h : nc[i]? with
    | none => simp
    | some row =>
      simp only [Option.map_some', Option.getD_some,
        List.getD_eq_getElem?_getD, List.getElem?_map]
      cases hr : row[j]? <;> simp

/-- C10: with the mechanics and flow keywords recorded, bc_values raises the
unknown-keyword ValueError exactly when the requested keyword is neither of
the two, and returns a value vector for either known keyword. -/
theorem bc_values_keyword_dispatch (km : String) (g : Grid) (t : ℚ)
    (key : String) :
    ((∃ e, bc_values km key_f g t key = .error e) ↔
      (key ≠ km ∧ key ≠ key_f)) ∧
    ((key = km ∨ key = key_f) → ∃ v, bc_values km key_f g t key = .ok v) := by
  unfold bc_values
  by_cases h1 : key = km
  · simp [h1]
  · by_cases h2 : key = key_f
    · by_cases h3 : key_f = km <;> simp [h1, h2, h3]
    · simp [h1, h2]

/-- Witness for C10: at the example grid and mechanics keyword "mechanics",
the unknown keyword "bad" errors and the flow keyword succeeds. -/
theorem bc_values_keyword_dispatch_witness :
    (∃ e, bc_values "mechanics" key_f exampleGrid 0 "bad" = .error e) ∧
    (∃ v, bc_values "mechanics" key_f exampleGrid 0 "flow" = .ok v) :=
  ⟨(bc_values_keyword_dispatch "mechanics" exampleGrid 0 "bad").1.mpr
      (by decide),
   (bc_values_keyword_dispatch "mechanics" exampleGrid 0 "flow").2
      (Or.inr rfl)⟩

end PoroContact
